import Mathlib

/-!
# LauraBraids API — verification of the validation and business-rule layer

Shallow embedding of the salon backend's validation schemas, order total
computation, appointment booking controller, uniqueness pre-checks and the
generic validation middleware, together with theorems settling the frozen
claims about them.

Numeric request values (prices, totals) are modelled as exact rationals `ℚ`;
timestamps are modelled as integers (milliseconds since the Unix epoch, as
returned by `Date.getTime()`).
-/

namespace LauraBraids

/-! ## Order total computation (`createOrder`, orders data layer)

Transcribed from the orders data layer:
```
const subtotal = orderData.items.reduce((sum, item) => sum + (item.quantity * item.unit_price), 0);
const taxAmount = subtotal * 0.1;
const shippingAmount = subtotal > 50 ? 0 : 10;
const totalAmount = subtotal + taxAmount + shippingAmount;
```
-/

/-- A validated order item: product reference, positive integer quantity and
unit price, as consumed by `createOrder`. -/
structure OrderItemInput where
  product_id : String
  quantity : ℤ
  unit_price : ℚ
  deriving DecidableEq, Repr

/-- The four derived amounts of an order. -/
structure OrderTotals where
  subtotal : ℚ
  tax_amount : ℚ
  shipping_amount : ℚ
  total_amount : ℚ
  deriving DecidableEq, Repr

/-- The total computation performed by `createOrder` in the orders data layer. -/
def computeOrderTotals (items : List OrderItemInput) : OrderTotals :=
  let subtotal := items.foldl (fun sum item => sum + (item.quantity : ℚ) * item.unit_price) 0
  let taxAmount := subtotal * 0.1
  let shippingAmount : ℚ := if subtotal > 50 then 0 else 10
  let totalAmount := subtotal + taxAmount + shippingAmount
  { subtotal := subtotal
    tax_amount := taxAmount
    shipping_amount := shippingAmount
    total_amount := totalAmount }

/-! ## Price field schemas

Three price schemas exist in the source:

* products (`part_002`) and appointments (`part_001`):
  `z.number().positive().max(9999.99).refine(p => Number((p*100).toFixed(0))/100 === p)`
* order items (`part_004`):
  `z.number().positive().max(9999999.99).multipleOf(0.01)`
-/

/-- JS `Number.prototype.toFixed(0)`: round to the nearest integer, ties
towards `+∞` ("If there are two such n, pick the larger n"), which is exactly
Mathlib's `round` on `ℚ`. -/
def toFixed0 (x : ℚ) : ℤ := round x

/-- The two-decimal refinement shared by the product and appointment price
schemas: `Number((price * 100).toFixed(0)) / 100 === price`. -/
def twoDecimalRefine (p : ℚ) : Prop := ((toFixed0 (p * 100) : ℚ)) / 100 = p

instance (p : ℚ) : Decidable (twoDecimalRefine p) := by
  unfold twoDecimalRefine; infer_instance

/-- Zod's `multipleOf(step)` remainder check (`floatSafeRemainder`), in exact
arithmetic: the remainder of `a` by `b`.  The schema conjoins it with
`positive()`, so floor division and JS truncating division agree on every
value the check is reached with. -/
def floatSafeRemainder (a b : ℚ) : ℚ := a - b * (⌊a / b⌋ : ℚ)

/-- Product price schema (`part_002`, also reused for product updates). -/
def productPriceAccepts (p : ℚ) : Prop :=
  0 < p ∧ p ≤ 9999.99 ∧ twoDecimalRefine p

/-- Appointment price schema (`part_001`); identical checks to the product
schema (the surrounding `.optional()` only admits an absent value). -/
def appointmentPriceAccepts (p : ℚ) : Prop :=
  0 < p ∧ p ≤ 9999.99 ∧ twoDecimalRefine p

/-- Order item price schema (`part_004`): cap `9999999.99`, `multipleOf 0.01`. -/
def orderItemPriceAccepts (p : ℚ) : Prop :=
  0 < p ∧ p ≤ 9999999.99 ∧ floatSafeRemainder p (1 / 100) = 0

instance (p : ℚ) : Decidable (productPriceAccepts p) := by
  unfold productPriceAccepts; infer_instance
instance (p : ℚ) : Decidable (appointmentPriceAccepts p) := by
  unfold appointmentPriceAccepts; infer_instance
instance (p : ℚ) : Decidable (orderItemPriceAccepts p) := by
  unfold orderItemPriceAccepts; infer_instance

/-- The spec's notion of "expressible with at most two decimal places". -/
def twoDecimalExpressible (p : ℚ) : Prop := ∃ n : ℤ, p = (n : ℚ) / 100

/-! ## Appointment date-time schema (`appointmentDateSchema`, `part_001`)

The schema's four refinements, transcribed:
```
appointmentDate >= new Date(now.getTime() + 60 * 60 * 1000)
appointmentDate <= new Date(now.getTime() + 6 * 30 * 24 * 60 * 60 * 1000)
appointmentDate.getDay() >= 1 && appointmentDate.getDay() <= 6
appointmentDate.getHours() >= 8 && appointmentDate.getHours() < 18
```
`getDay`/`getHours` read the date in local time; `tz` below is the local
timezone offset in milliseconds added to the UTC timestamp. -/

/-- Milliseconds per hour. -/
def msPerHour : ℤ := 3600000

/-- Milliseconds per day. -/
def msPerDay : ℤ := 86400000

/-- JS `Date.prototype.getDay` applied to a local-time timestamp `t` (ms):
`WeekDay(t) = (Day(t) + 4) modulo 7`, `Day(t) = floor(t / msPerDay)`;
`0` is Sunday, `1` Monday, ..., `6` Saturday. -/
def jsDay (t : ℤ) : ℤ := (Int.fdiv t msPerDay + 4).emod 7

/-- JS `Date.prototype.getHours` applied to a local-time timestamp `t` (ms):
`HourFromTime(t) = floor(t / msPerHour) modulo 24`. -/
def jsHours (t : ℤ) : ℤ := (Int.fdiv t msPerHour).emod 24

/-- Acceptance predicate of `appointmentDateSchema` on an input whose parsed
UTC timestamp is `t`, evaluated when the clock reads `now`, with local
timezone offset `tz` (all in milliseconds). -/
def appointmentDateAccepts (t now tz : ℤ) : Prop :=
  (now + 60 * 60 * 1000 ≤ t) ∧
  (t ≤ now + 6 * 30 * 24 * 60 * 60 * 1000) ∧
  (1 ≤ jsDay (t + tz) ∧ jsDay (t + tz) ≤ 6) ∧
  (8 ≤ jsHours (t + tz) ∧ jsHours (t + tz) < 18)

instance (t now tz : ℤ) : Decidable (appointmentDateAccepts t now tz) := by
  unfold appointmentDateAccepts; infer_instance

/-- Spec-side reading of the weekday rule: the local date falls on a Sunday. -/
def isSundayLocal (t tz : ℤ) : Prop := jsDay (t + tz) = 0

/-- Spec-side reading of the business-hours rule: local hour-of-day in `[8,18)`. -/
def inBusinessHoursLocal (t tz : ℤ) : Prop :=
  8 ≤ jsHours (t + tz) ∧ jsHours (t + tz) < 18

/-! ## Appointments controller (`appointments.controller.ts`)

The controller keeps an in-memory array of appointments; `createAppointment`,
`updateAppointment` and `deleteAppointment` are modelled as pure functions
from the current array (plus the clock and the freshly generated id) to a
response and the new array. -/

/-- The `AppointmentStatus` enum. -/
inductive AppointmentStatus
  | SCHEDULED
  | COMPLETED
  | CANCELLED
  | NO_SHOW
  deriving DecidableEq, Repr

/-- Parse a raw status string, mirroring `Object.values(AppointmentStatus).includes`. -/
def AppointmentStatus.ofString : String → Option AppointmentStatus
  | "SCHEDULED" => some .SCHEDULED
  | "COMPLETED" => some .COMPLETED
  | "CANCELLED" => some .CANCELLED
  | "NO_SHOW" => some .NO_SHOW
  | _ => none

/-- `Object.values(AppointmentStatus)`, in declaration order. -/
def statusValues : List String := ["SCHEDULED", "COMPLETED", "CANCELLED", "NO_SHOW"]

/-- The `Appointment` entity (dates as epoch milliseconds). -/
structure Appointment where
  id : String
  user_id : String
  stylist_id : String
  style_id : String
  appointment_date : ℤ
  status : AppointmentStatus
  notes : String
  created_at : ℤ
  updated_at : ℤ
  deriving DecidableEq, Repr

/-- Outcome of `new Date(raw)` on the raw `appointment_date` body field:
absent/falsy, present but unparseable (`NaN`), or a parsed timestamp. -/
inductive DateInput
  | missing
  | invalid
  | valid (t : ℤ)
  deriving DecidableEq, Repr

/-- Raw body of `POST /appointments`; absent or falsy string fields are
modelled as `""` (the controller only tests truthiness). -/
structure CreateAppointmentReq where
  user_id : String
  stylist_id : String
  style_id : String
  appointment_date : DateInput
  notes : String
  deriving DecidableEq, Repr

/-- Response of `createAppointment`: HTTP 400, 409 or 201 respectively. -/
inductive CreateAppointmentResult
  | badRequest (message : String)
  | conflict (message : String)
  | created (appointment : Appointment)
  deriving DecidableEq, Repr

/-- The availability check of `createAppointment`:
`appointments.find(a => a.stylist_id === stylist_id && a.appointment_date.getTime() === t && a.status === SCHEDULED)`. -/
def conflictCheck (apps : List Appointment) (stylist_id : String) (t : ℤ) :
    Option Appointment :=
  apps.find? fun a =>
    a.stylist_id == stylist_id && a.appointment_date == t
      && a.status == AppointmentStatus.SCHEDULED

/-- `createAppointment` from the appointments controller. -/
def createAppointment (apps : List Appointment) (req : CreateAppointmentReq)
    (now : ℤ) (newId : String) : CreateAppointmentResult × List Appointment :=
  if req.user_id = "" ∨ req.stylist_id = "" ∨ req.style_id = ""
      ∨ req.appointment_date = DateInput.missing then
    (.badRequest "Faltan campos requeridos: user_id, stylist_id, style_id, appointment_date", apps)
  else
    match req.appointment_date with
    | .missing =>
        (.badRequest "Faltan campos requeridos: user_id, stylist_id, style_id, appointment_date", apps)
    | .invalid => (.badRequest "Formato de fecha inválido", apps)
    | .valid t =>
        if t ≤ now then
          (.badRequest "La fecha de la cita debe ser futura", apps)
        else if (conflictCheck apps req.stylist_id t).isSome then
          (.conflict "La estilista ya tiene una cita programada en esa fecha y hora", apps)
        else
          let newAppointment : Appointment :=
            { id := newId
              user_id := req.user_id
              stylist_id := req.stylist_id
              style_id := req.style_id
              appointment_date := t
              status := .SCHEDULED
              notes := req.notes
              created_at := now
              updated_at := now }
          (.created newAppointment, apps ++ [newAppointment])

/-- Raw body of `PUT /appointments/:id`; `none` models an absent field. -/
structure UpdateAppointmentReq where
  appointment_date : DateInput
  status : Option String
  notes : Option String
  deriving DecidableEq, Repr

/-- Response of `updateAppointment`: HTTP 404, 400 or 200 respectively. -/
inductive UpdateAppointmentResult
  | notFound (message : String)
  | badRequest (message : String)
  | ok (appointment : Appointment)
  deriving DecidableEq, Repr

/-- JS truthiness of the raw `status` field (a missing or empty string is falsy). -/
def truthyStatus : Option String → Bool
  | some s => !(s == "")
  | none => false

/-- The controller's rejection `appointmentDateTime <= now && status !== 'COMPLETED'`,
evaluated only when a date was provided. -/
def pastDateRejected (d : DateInput) (status : Option String) (now : ℤ) : Bool :=
  match d with
  | .valid t => decide (t ≤ now) && !(status == some "COMPLETED")
  | _ => false

/-- The merged entity built by `updateAppointment`:
```
{ ...currentAppointment,
  appointment_date: appointmentDateTime || currentAppointment.appointment_date,
  status: status || currentAppointment.status,
  notes: notes !== undefined ? notes : currentAppointment.notes,
  updated_at: new Date() }
```
-/
def mergeAppointment (current : Appointment) (req : UpdateAppointmentReq)
    (now : ℤ) : Appointment :=
  { current with
    appointment_date :=
      match req.appointment_date with
      | .valid t => t
      | _ => current.appointment_date
    status :=
      if truthyStatus req.status then
        (AppointmentStatus.ofString (req.status.getD "")).getD current.status
      else current.status
    notes :=
      match req.notes with
      | some n => n
      | none => current.notes
    updated_at := now }

/-- `updateAppointment` from the appointments controller. -/
def updateAppointment (apps : List Appointment) (id : String)
    (req : UpdateAppointmentReq) (now : ℤ) :
    UpdateAppointmentResult × List Appointment :=
  match apps.findIdx? (fun a => a.id == id) with
  | none => (.notFound "Cita no encontrada", apps)
  | some i =>
    match apps.get? i with
    | none => (.notFound "Cita no encontrada", apps)
    | some current =>
      if req.appointment_date = DateInput.invalid then
        (.badRequest "Formato de fecha inválido", apps)
      else if pastDateRejected req.appointment_date req.status now then
        (.badRequest "La fecha de la cita debe ser futura", apps)
      else if truthyStatus req.status && !(statusValues.contains (req.status.getD "")) then
        (.badRequest "Estado inválido. Debe ser uno de: SCHEDULED, COMPLETED, CANCELLED, NO_SHOW", apps)
      else
        let updated : Appointment := mergeAppointment current req now
        (.ok updated, apps.set i updated)

/-- Response of `deleteAppointment`: HTTP 404 or 204. -/
inductive DeleteAppointmentResult
  | notFound (message : String)
  | noContent
  deriving DecidableEq, Repr

/-- `deleteAppointment` from the appointments controller (`splice(i, 1)`). -/
def deleteAppointment (apps : List Appointment) (id : String) :
    DeleteAppointmentResult × List Appointment :=
  match apps.findIdx? (fun a => a.id == id) with
  | none => (.notFound "Cita no encontrada", apps)
  | some i => (.noContent, apps.eraseIdx i)

/-- One invocation of an appointment endpoint (the clock reading and the
generated id are inputs of the step). -/
inductive AppointmentOp
  | createOp (req : CreateAppointmentReq) (now : ℤ) (newId : String)
  | updateOp (id : String) (req : UpdateAppointmentReq) (now : ℤ)
  | deleteOp (id : String)

/-- State transition of the in-memory appointment array under one operation. -/
def applyAppointmentOp (apps : List Appointment) : AppointmentOp → List Appointment
  | .createOp req now newId => (createAppointment apps req now newId).2
  | .updateOp id req now => (updateAppointment apps id req now).2
  | .deleteOp id => (deleteAppointment apps id).2

/-- Run a sequence of appointment operations from a starting store. -/
def runAppointmentOps (apps : List Appointment) (ops : List AppointmentOp) :
    List Appointment :=
  ops.foldl applyAppointmentOp apps

/-- The claimed invariant: at most one `SCHEDULED` appointment per
(stylist, exact date-time) pair. -/
def atMostOneScheduledPerSlot (apps : List Appointment) : Prop :=
  ∀ a ∈ apps, ∀ b ∈ apps,
    a.status = AppointmentStatus.SCHEDULED → b.status = AppointmentStatus.SCHEDULED →
    a.stylist_id = b.stylist_id → a.appointment_date = b.appointment_date → a = b

instance (apps : List Appointment) : Decidable (atMostOneScheduledPerSlot apps) := by
  unfold atMostOneScheduledPerSlot; infer_instance

/-- The controller's seeded in-memory store (`initialAppointments`): ids are
generated by `uuidv4()` (modelled as distinct literals) and the `new Date(...)`
literals are modelled as their parsed epoch-millisecond instants. -/
def initialAppointments : List Appointment :=
  [ { id := "uuid-1", user_id := "user-1", stylist_id := "stylist-1", style_id := "style-1"
      appointment_date := 1721037600000, status := .SCHEDULED
      notes := "Primera cita, cliente quiere Box Braids largas"
      created_at := 1719792000000, updated_at := 1719792000000 },
    { id := "uuid-2", user_id := "user-2", stylist_id := "stylist-2", style_id := "style-2"
      appointment_date := 1720621800000, status := .COMPLETED
      notes := "Cliente regular, satisfecha con el resultado"
      created_at := 1719273600000, updated_at := 1720569600000 },
    { id := "uuid-3", user_id := "user-3", stylist_id := "stylist-1", style_id := "style-3"
      appointment_date := 1721473200000, status := .CANCELLED
      notes := "Cliente canceló por motivos personales"
      created_at := 1720137600000, updated_at := 1721260800000 } ]

/-- An operation sequence reaching an invariant-violating store: create two
appointments for the same stylist at distinct future instants, then move the
second onto the first's slot via `updateAppointment`, which performs no
conflict check. -/
def c3ViolatingOps : List AppointmentOp :=
  [ .createOp ⟨"user-9", "stylist-9", "style-9", .valid 1721902000000, ""⟩ 1721500000000 "b1",
    .createOp ⟨"user-8", "stylist-9", "style-9", .valid 1721904000000, ""⟩ 1721500000000 "b2",
    .updateOp "b2" ⟨.valid 1721902000000, none, none⟩ 1721500000000 ]

/-! ## Validation middleware (`validation.middleware.ts`)

`validateMultiple` receives up to three Zod schemas (body, params, query).
A schema is modelled as a function from the raw value to either a normalized
value or the list of formatted field errors produced by `formatZodError`. -/

/-- A formatted field error, as produced by `formatZodError`:
`{ field: err.path.join('.'), message: err.message, code: err.code }`. -/
structure FieldError where
  field : String
  message : String
  code : String
  deriving DecidableEq, Repr

/-- The uniform error envelope
`{ success: false, message, errors, timestamp }`. -/
structure ValidationEnvelope where
  success : Bool
  message : String
  errors : List FieldError
  timestamp : String
  deriving DecidableEq, Repr

/-- The mutable parts of the in-flight request that the middleware validates
and replaces. -/
structure RequestData (α β γ : Type) where
  body : α
  params : β
  query : γ

/-- Outcome of the middleware: call `next()` with the (possibly replaced)
request, or respond with status 400 and the error envelope. -/
inductive MiddlewareOutcome (α β γ : Type)
  | next (req : RequestData α β γ)
  | respond400 (envelope : ValidationEnvelope)

/-- A Zod schema over values of type `σ`: `schema.parse` either returns the
normalized value or throws a `ZodError`, here the formatted error list. -/
def Schema (σ : Type) := σ → Except (List FieldError) σ

/-- One `try { x = schema.parse(x) } catch { errors.push(...) }` block of
`validateMultiple`: the errors contributed and the (possibly replaced) value. -/
def runTarget {σ : Type} (s : Option (Schema σ)) (v : σ) : List FieldError × σ :=
  match s with
  | none => ([], v)
  | some f =>
    match f v with
    | .ok w => ([], w)
    | .error es => (es, v)

/-- `validateMultiple` from the validation middleware: validate body, params
and query in that order, accumulate all errors, then either continue with the
replaced values or respond 400 with every collected error. -/
def validateMultiple {α β γ : Type} (sb : Option (Schema α)) (sp : Option (Schema β))
    (sq : Option (Schema γ)) (req : RequestData α β γ) (ts : String) :
    MiddlewareOutcome α β γ :=
  let rb := runTarget sb req.body
  let rp := runTarget sp req.params
  let rq := runTarget sq req.query
  let errors := rb.1 ++ rp.1 ++ rq.1
  if errors.isEmpty then
    .next ⟨rb.2, rp.2, rq.2⟩
  else
    .respond400
      { success := false
        message := "Errores de validación en los datos proporcionados"
        errors := errors
        timestamp := ts }

/-- The formatted errors a provided schema contributes for a location
(none when no schema is provided or the schema succeeds). -/
def targetErrors {σ : Type} (s : Option (Schema σ)) (v : σ) : List FieldError :=
  match s with
  | none => []
  | some f =>
    match f v with
    | .ok _ => []
    | .error es => es

/-- The normalized value of a location (the raw value when no schema is
provided or the schema fails). -/
def targetValue {σ : Type} (s : Option (Schema σ)) (v : σ) : σ :=
  match s with
  | none => v
  | some f =>
    match f v with
    | .ok w => w
    | .error _ => v

/-- All field errors collected across the three locations, in the middleware's
body, params, query order. -/
def collectedErrors {α β γ : Type} (sb : Option (Schema α)) (sp : Option (Schema β))
    (sq : Option (Schema γ)) (req : RequestData α β γ) : List FieldError :=
  targetErrors sb req.body ++ targetErrors sp req.params ++ targetErrors sq req.query

/-! ## Order creation payload (`createOrderSchema`, `part_004`, wired as
`router.post('/', requireAuth, validateBody(createOrderSchema), createOrder)`) -/

/-- Hexadecimal digit, either case. -/
def isHexDigit (c : Char) : Bool :=
  c.isDigit || ('a' ≤ c && c ≤ 'f') || ('A' ≤ c && c ≤ 'F')

/-- Split a character list at `'-'` separators. -/
def splitDash : List Char → List (List Char)
  | [] => [[]]
  | c :: cs =>
    let rest := splitDash cs
    if c = '-' then [] :: rest
    else
      match rest with
      | [] => [[c]]
      | g :: gs => (c :: g) :: gs

/-- `z.string().uuid()`: five dash-separated hexadecimal groups of lengths
8-4-4-4-12. -/
def isUuid (s : String) : Bool :=
  match splitDash s.toList with
  | [a, b, c, d, e] =>
    a.length == 8 && b.length == 4 && c.length == 4 && d.length == 4
      && e.length == 12 && (a ++ b ++ c ++ d ++ e).all isHexDigit
  | _ => false

/-- A raw (pre-validation) order item from the request body. -/
structure RawOrderItem where
  product_id : String
  quantity : ℚ
  unit_price : ℚ
  deriving DecidableEq, Repr

/-- A raw (pre-validation) `POST /orders` body. -/
structure RawCreateOrder where
  customer_id : String
  items : List RawOrderItem
  shipping_address : Option String
  billing_address : Option String
  payment_method : Option String
  deriving DecidableEq, Repr

/-- `quantitySchema`: `z.number().int().positive().max(999)`. -/
def quantityAccepts (q : ℚ) : Prop := q.den = 1 ∧ 0 < q ∧ q ≤ 999

instance (q : ℚ) : Decidable (quantityAccepts q) := by
  unfold quantityAccepts; infer_instance

/-- `orderItemSchema`: valid product UUID, quantity, unit price. -/
def orderItemAccepts (it : RawOrderItem) : Prop :=
  isUuid it.product_id = true ∧ quantityAccepts it.quantity
    ∧ orderItemPriceAccepts it.unit_price

instance (it : RawOrderItem) : Decidable (orderItemAccepts it) := by
  unfold orderItemAccepts; infer_instance

/-- `addressSchema` length bounds (`min 10`, `max 500`); lengths are counted
in characters. -/
def addressAccepts (s : String) : Prop := 10 ≤ s.length ∧ s.length ≤ 500

instance (s : String) : Decidable (addressAccepts s) := by
  unfold addressAccepts; infer_instance

/-- `paymentMethodSchema` length bounds (`min 2`, `max 50`). -/
def paymentMethodAccepts (s : String) : Prop := 2 ≤ s.length ∧ s.length ≤ 50

instance (s : String) : Decidable (paymentMethodAccepts s) := by
  unfold paymentMethodAccepts; infer_instance

/-- Lift a field rule over `.optional()`: an absent value is accepted. -/
def optAccepts (P : String → Prop) : Option String → Prop
  | none => True
  | some s => P s

instance (P : String → Prop) [i : DecidablePred P] :
    (o : Option String) → Decidable (optAccepts P o)
  | none => Decidable.isTrue trivial
  | some s => i s

/-- The base object checks of `createOrderSchema` (before its `.refine`):
valid customer UUID, every item valid, `items` length in `[1, 50]`, optional
addresses and payment method within bounds. -/
def createOrderBaseAccepts (p : RawCreateOrder) : Prop :=
  isUuid p.customer_id = true ∧
  (∀ it ∈ p.items, orderItemAccepts it) ∧
  1 ≤ p.items.length ∧ p.items.length ≤ 50 ∧
  optAccepts addressAccepts p.shipping_address ∧
  optAccepts addressAccepts p.billing_address ∧
  optAccepts paymentMethodAccepts p.payment_method

instance (p : RawCreateOrder) : Decidable (createOrderBaseAccepts p) := by
  unfold createOrderBaseAccepts; infer_instance

/-- The `.refine` of `createOrderSchema`:
`productIds.length === new Set(productIds).size`, the set's size being the
number of distinct ids. -/
def duplicateRefineOk (p : RawCreateOrder) : Prop :=
  (p.items.map (fun it => it.product_id)).length
    = (p.items.map (fun it => it.product_id)).dedup.length

instance (p : RawCreateOrder) : Decidable (duplicateRefineOk p) := by
  unfold duplicateRefineOk; infer_instance

/-- The transforms applied by the address and payment-method field schemas. -/
def normalizeCreateOrder (p : RawCreateOrder) : RawCreateOrder :=
  { p with
    shipping_address := p.shipping_address.map String.trim
    billing_address := p.billing_address.map String.trim
    payment_method := p.payment_method.map String.trim }

/-- `createOrderSchema.parse`: `some` normalized payload on success, `none`
(a thrown `ZodError`, i.e. a 400 from the middleware) on failure.  The object
checks run first; the `.refine` runs on a successfully parsed object. -/
def createOrderValidate (p : RawCreateOrder) : Option RawCreateOrder :=
  if createOrderBaseAccepts p then
    if duplicateRefineOk p then some (normalizeCreateOrder p) else none
  else none

/-- Outcome of a route whose handler returns a `ρ`: the validation middleware
either responds 400 or passes control to the handler. -/
inductive RouteOutcome (ρ : Type)
  | validationError400
  | handled (response : ρ)
  deriving DecidableEq

/-- The `POST /orders` route: `validateBody(createOrderSchema)` runs before
`createOrder`; the handler only ever runs on a successfully validated body. -/
def postOrdersRoute {ρ : Type} (p : RawCreateOrder) (handler : RawCreateOrder → ρ) :
    RouteOutcome ρ :=
  match createOrderValidate p with
  | none => .validationError400
  | some v => .handled (handler v)

/-- A payload whose two items share a product id (all fields otherwise valid,
so rejection is decided by the duplicate `.refine` itself). -/
def c5DupPayload : RawCreateOrder :=
  { customer_id := "550e8400-e29b-41d4-a716-446655440000"
    items := [⟨"6ba7b810-9dad-11d1-80b4-00c04fd430c8", 1, 10⟩,
              ⟨"6ba7b810-9dad-11d1-80b4-00c04fd430c8", 2, 25.99⟩]
    shipping_address := none
    billing_address := none
    payment_method := none }

/-- A fully valid one-item payload. -/
def c10OkPayload : RawCreateOrder :=
  { customer_id := "550e8400-e29b-41d4-a716-446655440000"
    items := [⟨"6ba7b810-9dad-11d1-80b4-00c04fd430c8", 2, 10⟩]
    shipping_address := none
    billing_address := none
    payment_method := none }

/-- A payload with 51 items. -/
def c10BigPayload : RawCreateOrder :=
  { customer_id := "550e8400-e29b-41d4-a716-446655440000"
    items := List.replicate 51 ⟨"6ba7b810-9dad-11d1-80b4-00c04fd430c8", 1, 10⟩
    shipping_address := none
    billing_address := none
    payment_method := none }

/-! ## Uniqueness pre-checks on create (categories, reviews, users)

`createCategory` (products controller), `createReview` (reviews controller)
and `createUser` (users controller) each query the store for the uniqueness
key before inserting.  Results are modelled as the HTTP status code paired
with the resulting store. -/

/-- The `Category` entity. -/
structure Category where
  id : String
  name : String
  description : Option String
  display_order : ℤ
  is_active : Bool
  created_at : ℤ
  updated_at : ℤ
  deriving DecidableEq, Repr

/-- `getCategoryByName` (categories data layer): `WHERE name = ?`. -/
def getCategoryByName (cats : List Category) (name : String) : Option Category :=
  cats.find? fun c => c.name == name

/-- A validated category-creation body. -/
structure CategoryCreateRequest where
  name : String
  description : Option String
  display_order : Option ℤ
  is_active : Option Bool
  deriving DecidableEq, Repr

/-- `addCategory` (categories data layer): `description || null`,
`display_order || 0`, `is_active !== undefined ? is_active : true`. -/
def addCategory (cats : List Category) (r : CategoryCreateRequest)
    (newId : String) (now : ℤ) : Category × List Category :=
  let c : Category :=
    { id := newId
      name := r.name
      description :=
        match r.description with
        | some d => if d = "" then none else some d
        | none => none
      display_order := r.display_order.getD 0
      is_active := r.is_active.getD true
      created_at := now
      updated_at := now }
  (c, cats ++ [c])

/-- `createCategory` (products controller): reject duplicates by name with
status 400 (`res.status(400)`), otherwise insert and answer 201. -/
def createCategory (cats : List Category) (r : CategoryCreateRequest)
    (newId : String) (now : ℤ) : ℕ × List Category :=
  match getCategoryByName cats r.name with
  | some _ => (400, cats)
  | none => (201, (addCategory cats r newId now).2)

/-- The `ReviewableType` enum. -/
inductive ReviewableType
  | STYLIST
  | PRODUCT
  | STYLE
  deriving DecidableEq, Repr

/-- `Object.values(ReviewableType).includes`, as a parser. -/
def ReviewableType.ofString : String → Option ReviewableType
  | "STYLIST" => some .STYLIST
  | "PRODUCT" => some .PRODUCT
  | "STYLE" => some .STYLE
  | _ => none

/-- The `Review` entity. -/
structure Review where
  id : String
  user_id : String
  rating : ℚ
  comment : String
  reviewable_id : String
  reviewable_type : ReviewableType
  is_verified : Bool
  created_at : ℤ
  updated_at : ℤ
  deriving DecidableEq, Repr

/-- Raw body of `POST /reviews`; absent or falsy string fields are modelled
as `""`, the raw numeric rating as an optional rational. -/
structure CreateReviewReq where
  user_id : String
  rating : Option ℚ
  comment : String
  reviewable_id : String
  reviewable_type : String
  deriving DecidableEq, Repr

/-- JS falsiness of the raw rating (`!rating`): missing or zero. -/
def ratingFalsy : Option ℚ → Bool
  | none => true
  | some r => r == 0

/-- `createReview` (reviews controller). -/
def createReview (revs : List Review) (req : CreateReviewReq)
    (newId : String) (now : ℤ) : ℕ × List Review :=
  if req.user_id = "" ∨ ratingFalsy req.rating = true ∨ req.comment = ""
      ∨ req.reviewable_id = "" ∨ req.reviewable_type = "" then
    (400, revs)
  else
    match req.rating with
    | none => (400, revs)
    | some rating =>
      if rating < 1 ∨ 5 < rating ∨ rating.den ≠ 1 then
        (400, revs)
      else
        match ReviewableType.ofString req.reviewable_type with
        | none => (400, revs)
        | some rt =>
          if (revs.find? fun r =>
                r.user_id == req.user_id && r.reviewable_id == req.reviewable_id
                  && r.reviewable_type == rt).isSome then
            (409, revs)
          else
            let newReview : Review :=
              { id := newId
                user_id := req.user_id
                rating := rating
                comment := req.comment
                reviewable_id := req.reviewable_id
                reviewable_type := rt
                is_verified := false
                created_at := now
                updated_at := now }
            (201, revs ++ [newReview])

/-- The `User` entity (the `is_active` soft-delete flag lives in the users
table and defaults to `true` on insert). -/
structure User where
  id : String
  name : String
  email : String
  password_hash : String
  role : String
  is_active : Bool
  created_at : ℤ
  updated_at : ℤ
  deriving DecidableEq, Repr

/-- `getUserByEmail` (users data layer): `WHERE email = ? AND is_active = true`. -/
def getUserByEmail (users : List User) (email : String) : Option User :=
  users.find? fun u => u.email == email && u.is_active

/-- `createUser` (users controller): check the email, then hash and insert
(the hash is an input of the model). -/
def createUser (users : List User) (name email passwordHash role : String)
    (newId : String) (now : ℤ) : ℕ × List User :=
  match getUserByEmail users email with
  | some _ => (409, users)
  | none =>
    let u : User :=
      { id := newId, name := name, email := email, password_hash := passwordHash,
        role := role, is_active := true, created_at := now, updated_at := now }
    (201, users ++ [u])

/-! ## Partial updates (`updateCategory` data layer, `updateAppointment`) -/

/-- A category partial-update body; an outer `none` models an absent field
(`!== undefined`), so a provided `null` description is `some none`. -/
structure CategoryUpdateRequest where
  name : Option String
  description : Option (Option String)
  display_order : Option ℤ
  is_active : Option Bool
  deriving DecidableEq, Repr

/-- `updateCategory` (categories data layer), at the level of the addressed
row: overwrite each provided field, always set `updated_at = NOW()`; when no
field is provided (`setClause.length === 1`) return `null` without writing. -/
def updateCategoryRow (c : Category) (u : CategoryUpdateRequest) (now : ℤ) :
    Option Category :=
  if u.name = none ∧ u.description = none ∧ u.display_order = none
      ∧ u.is_active = none then
    none
  else
    some { c with
      name := u.name.getD c.name
      description := u.description.getD c.description
      display_order := u.display_order.getD c.display_order
      is_active := u.is_active.getD c.is_active
      updated_at := now }

/-- A concrete category for exercising the update path. -/
def c9Category : Category :=
  { id := "cat-1", name := "Trenzas", description := none, display_order := 1,
    is_active := true, created_at := 0, updated_at := 0 }

/-- A concrete partial update renaming the category. -/
def c9Update : CategoryUpdateRequest :=
  { name := some "Trenzas Africanas", description := none,
    display_order := none, is_active := none }

/-- A concrete category store for the duplicate-name rejection. -/
def c7Categories : List Category :=
  [{ id := "cat-1", name := "Trenzas", description := none, display_order := 1,
     is_active := true, created_at := 0, updated_at := 0 }]

/-- A stored review by user `u1` on stylist `s1`. -/
def c7Review : Review :=
  { id := "r1", user_id := "u1", rating := 4, comment := "Muy buena",
    reviewable_id := "s1", reviewable_type := .STYLIST, is_verified := false,
    created_at := 0, updated_at := 0 }

/-- A valid review request duplicating `c7Review`'s (user, target) key. -/
def c7ReviewReq : CreateReviewReq :=
  { user_id := "u1", rating := some 5, comment := "Excelente",
    reviewable_id := "s1", reviewable_type := "STYLIST" }

end LauraBraids

namespace LauraBraids

/-! ## Helper lemmas -/

private lemma foldl_add_map_sum (f : OrderItemInput → ℚ) :
    ∀ (l : List OrderItemInput) (a : ℚ),
      l.foldl (fun sum item => sum + f item) a = a + (l.map f).sum := by
  intro l
  induction l with
  | nil => intro a; simp
  | cons x xs ih =>
    intro a
    simp only [List.foldl_cons, List.map_cons, List.sum_cons]
    rw [ih]
    ring

private lemma twoDecimalRefine_iff (p : ℚ) :
    twoDecimalRefine p ↔ twoDecimalExpressible p := by
  unfold twoDecimalRefine twoDecimalExpressible toFixed0
  constructor
  · intro h
    exact ⟨round (p * 100), h.symm⟩
  · rintro ⟨n, rfl⟩
    have : (n : ℚ) / 100 * 100 = (n : ℚ) := by field_simp
    rw [this, round_intCast]

private lemma floatSafeRemainder_hundredth_iff (p : ℚ) :
    floatSafeRemainder p (1 / 100) = 0 ↔ twoDecimalExpressible p := by
  unfold floatSafeRemainder twoDecimalExpressible
  have hdiv : p / (1 / 100) = p * 100 := by
    rw [div_div_eq_mul_div, div_one, mul_comm]
  rw [hdiv, sub_eq_zero]
  constructor
  · intro h
    refine ⟨⌊p * 100⌋, ?_⟩
    conv_lhs => rw [h]
    ring
  · rintro ⟨n, rfl⟩
    have : (n : ℚ) / 100 * 100 = (n : ℚ) := by field_simp
    rw [this, Int.floor_intCast]
    ring

private lemma conflictCheck_isSome_iff (apps : List Appointment) (sid : String) (t : ℤ) :
    (conflictCheck apps sid t).isSome
      ↔ ∃ a ∈ apps, a.stylist_id = sid ∧ a.appointment_date = t
          ∧ a.status = AppointmentStatus.SCHEDULED := by
  unfold conflictCheck
  rw [List.find?_isSome]
  constructor
  · rintro ⟨a, ha, hp⟩
    simp only [Bool.and_eq_true, beq_iff_eq] at hp
    exact ⟨a, ha, hp.1.1, hp.1.2, hp.2⟩
  · rintro ⟨a, ha, h1, h2, h3⟩
    exact ⟨a, ha, by simp [h1, h2, h3]⟩

private lemma runTarget_fst {σ : Type} (s : Option (Schema σ)) (v : σ) :
    (runTarget s v).1 = targetErrors s v := by
  cases s with
  | none => rfl
  | some f =>
    cases hfv : f v <;> simp [runTarget, targetErrors, hfv]

private lemma runTarget_snd {σ : Type} (s : Option (Schema σ)) (v : σ) :
    (runTarget s v).2 = targetValue s v := by
  cases s with
  | none => rfl
  | some f =>
    cases hfv : f v <;> simp [runTarget, targetValue, hfv]

private lemma validateMultiple_eq {α β γ : Type} (sb : Option (Schema α))
    (sp : Option (Schema β)) (sq : Option (Schema γ)) (req : RequestData α β γ)
    (ts : String) :
    validateMultiple sb sp sq req ts =
      if collectedErrors sb sp sq req = [] then
        MiddlewareOutcome.next ⟨targetValue sb req.body, targetValue sp req.params,
                                targetValue sq req.query⟩
      else
        MiddlewareOutcome.respond400
          { success := false
            message := "Errores de validación en los datos proporcionados"
            errors := collectedErrors sb sp sq req
            timestamp := ts } := by
  simp only [validateMultiple, collectedErrors, runTarget_fst, runTarget_snd,
    List.isEmpty_iff]

private lemma getCategoryByName_isSome_iff (cats : List Category) (n : String) :
    (getCategoryByName cats n).isSome ↔ ∃ c ∈ cats, c.name = n := by
  unfold getCategoryByName
  rw [List.find?_isSome]
  simp [beq_iff_eq]

private lemma getUserByEmail_isSome_iff (users : List User) (e : String) :
    (getUserByEmail users e).isSome
      ↔ ∃ u ∈ users, u.email = e ∧ u.is_active = true := by
  unfold getUserByEmail
  rw [List.find?_isSome]
  simp [Bool.and_eq_true, beq_iff_eq]

private lemma reviewFind_isSome_iff (revs : List Review) (uid rid : String)
    (rt : ReviewableType) :
    ((revs.find? fun r =>
        r.user_id == uid && r.reviewable_id == rid && r.reviewable_type == rt).isSome)
      ↔ ∃ r ∈ revs, r.user_id = uid ∧ r.reviewable_id = rid
          ∧ r.reviewable_type = rt := by
  rw [List.find?_isSome]
  constructor
  · rintro ⟨r, hr, hp⟩
    simp only [Bool.and_eq_true, beq_iff_eq] at hp
    exact ⟨r, hr, hp.1.1, hp.1.2, hp.2⟩
  · rintro ⟨r, hr, h1, h2, h3⟩
    exact ⟨r, hr, by simp [h1, h2, h3]⟩

private lemma dedup_length_eq_iff (l : List String) :
    l.dedup.length = l.length ↔ l.Nodup := by
  constructor
  · intro h
    have hsub : List.Sublist l.dedup l := List.dedup_sublist l
    have heq := List.Sublist.eq_of_length hsub h
    rw [← heq]
    exact l.nodup_dedup
  · intro h
    rw [List.Nodup.dedup h]

/-! ## Claim theorems -/

/-- C1: order creation computes `subtotal = Σ qᵢ·uᵢ`, `tax = subtotal·0.10`,
`shipping = 0` if `subtotal > 50` and `10` otherwise, and
`total = subtotal + tax + shipping`; the single item `(qty 1, price 15.50)`
yields subtotal `15.50`, tax `1.55`, shipping `10.00`, total `27.05`. -/
theorem C1_order_totals :
    (∀ items : List OrderItemInput,
      (computeOrderTotals items).subtotal
          = (items.map fun item => (item.quantity : ℚ) * item.unit_price).sum ∧
      (computeOrderTotals items).tax_amount = (computeOrderTotals items).subtotal * (10 / 100) ∧
      (computeOrderTotals items).shipping_amount
          = (if (computeOrderTotals items).subtotal > 50 then (0 : ℚ) else 10) ∧
      (computeOrderTotals items).total_amount
          = (computeOrderTotals items).subtotal + (computeOrderTotals items).tax_amount
              + (computeOrderTotals items).shipping_amount) ∧
    computeOrderTotals [⟨"p1", 1, 15.50⟩]
      = { subtotal := 15.50, tax_amount := 1.55, shipping_amount := 10.00,
          total_amount := 27.05 } := by
  constructor
  · intro items
    unfold computeOrderTotals
    refine ⟨?_, ?_, ?_, ?_⟩
    · simpa using foldl_add_map_sum (fun item => (item.quantity : ℚ) * item.unit_price) items 0
    · norm_num
    · rfl
    · rfl
  · unfold computeOrderTotals
    norm_num

/-- C6 (corrected): the product and appointment price schemas accept exactly
the positive rationals at most `9999.99` expressible with two decimal places;
the order item price schema applies the same positivity and two-decimal rules
but caps at `9999999.99`, not `9999.99`. -/
theorem C6_price_schemas :
    (∀ p : ℚ, productPriceAccepts p ↔ 0 < p ∧ p ≤ 9999.99 ∧ twoDecimalExpressible p) ∧
    (∀ p : ℚ, appointmentPriceAccepts p ↔ 0 < p ∧ p ≤ 9999.99 ∧ twoDecimalExpressible p) ∧
    (∀ p : ℚ, orderItemPriceAccepts p ↔ 0 < p ∧ p ≤ 9999999.99 ∧ twoDecimalExpressible p) := by
  refine ⟨fun p => ?_, fun p => ?_, fun p => ?_⟩
  · unfold productPriceAccepts
    rw [twoDecimalRefine_iff]
  · unfold appointmentPriceAccepts
    rw [twoDecimalRefine_iff]
  · unfold orderItemPriceAccepts
    rw [floatSafeRemainder_hundredth_iff]

/-- C6 counterexample: `10000` (positive, exactly two decimals, greater than
`9999.99`) is accepted by the order item price schema, refuting "a numeric
input is accepted exactly when it is positive, at most 9999.99, and
expressible with at most two decimal places" for that schema. -/
theorem C6_counterexample :
    orderItemPriceAccepts 10000 ∧ ¬ ((10000 : ℚ) ≤ 9999.99) := by
  constructor
  · refine ⟨by norm_num, by norm_num, ?_⟩
    rw [floatSafeRemainder_hundredth_iff]
    exact ⟨1000000, by norm_num⟩
  · norm_num

/-- C4 (corrected): an input is accepted by `appointmentDateSchema` iff its
timestamp is at least one hour after evaluation time (the one-hour boundary
itself is accepted, the bound is not strict), at most `6 × 30` days after it,
falls Monday–Saturday in local time, and its local hour-of-day is in `[8,18)`. -/
theorem C4_date_schema (t now tz : ℤ) :
    appointmentDateAccepts t now tz
      ↔ (now + msPerHour ≤ t ∧ t ≤ now + 15552000000
          ∧ ¬ isSundayLocal t tz ∧ inBusinessHoursLocal t tz) := by
  have h0 : 0 ≤ jsDay (t + tz) := Int.emod_nonneg _ (by norm_num)
  have h7 : jsDay (t + tz) < 7 := Int.emod_lt_of_pos _ (by norm_num)
  unfold appointmentDateAccepts isSundayLocal inBusinessHoursLocal msPerHour
  generalize jsDay (t + tz) = d at h0 h7
  generalize jsHours (t + tz) = h
  omega

/-- C4 counterexample: the instant exactly one hour after evaluation time
(a Monday, 10:00 local) is accepted by the schema, refuting "strictly more
than one hour after t". -/
theorem C4_counterexample :
    appointmentDateAccepts 381600000 378000000 0
      ∧ ¬ (378000000 + msPerHour < 381600000) := by
  constructor
  · decide
  · decide

/-- C2 (corrected): provided the request passes the preliminary validations
(all required fields present, a parseable date, a strictly future date),
creation responds 409 and leaves the store unchanged exactly when some
existing appointment has the same stylist, the same exact timestamp and
status `SCHEDULED`; otherwise the appointment is appended.  (A request
failing a preliminary validation is rejected 400 even when such a conflicting
appointment exists, so the unconditional claim fails; see the counterexample.) -/
theorem C2_conflict_detection (apps : List Appointment) (req : CreateAppointmentReq)
    (now : ℤ) (newId : String) (t : ℤ)
    (hu : req.user_id ≠ "") (hsty : req.stylist_id ≠ "") (hstl : req.style_id ≠ "")
    (hd : req.appointment_date = DateInput.valid t) (hfut : now < t) :
    (((createAppointment apps req now newId).1
        = CreateAppointmentResult.conflict
            "La estilista ya tiene una cita programada en esa fecha y hora"
      ∧ (createAppointment apps req now newId).2 = apps)
      ↔ ∃ a ∈ apps, a.stylist_id = req.stylist_id ∧ a.appointment_date = t
            ∧ a.status = AppointmentStatus.SCHEDULED) ∧
    ((¬ ∃ a ∈ apps, a.stylist_id = req.stylist_id ∧ a.appointment_date = t
            ∧ a.status = AppointmentStatus.SCHEDULED) →
      (createAppointment apps req now newId).2
        = apps ++ [{ id := newId, user_id := req.user_id, stylist_id := req.stylist_id,
                     style_id := req.style_id, appointment_date := t,
                     status := AppointmentStatus.SCHEDULED, notes := req.notes,
                     created_at := now, updated_at := now }] ) := by
  obtain ⟨u, sty, stl, d, nts⟩ := req
  simp only at hu hsty hstl hd hfut ⊢
  subst hd
  have hcond : ¬ (u = "" ∨ sty = "" ∨ stl = ""
      ∨ DateInput.valid t = DateInput.missing) := by
    simp [hu, hsty, hstl]
  have hnotpast : ¬ t ≤ now := by omega
  by_cases hc : (conflictCheck apps sty t).isSome
  · have hex := (conflictCheck_isSome_iff apps sty t).mp hc
    have heq : createAppointment apps ⟨u, sty, stl, DateInput.valid t, nts⟩ now newId
        = (.conflict "La estilista ya tiene una cita programada en esa fecha y hora",
           apps) := by
      simp only [createAppointment, if_neg hcond, if_neg hnotpast, if_pos hc]
    rw [heq]
    exact ⟨iff_of_true ⟨rfl, rfl⟩ hex, fun hn => absurd hex hn⟩
  · have hnex := (conflictCheck_isSome_iff apps sty t).not.mp hc
    have heq : createAppointment apps ⟨u, sty, stl, DateInput.valid t, nts⟩ now newId
        = (.created { id := newId, user_id := u, stylist_id := sty, style_id := stl,
                      appointment_date := t, status := AppointmentStatus.SCHEDULED,
                      notes := nts, created_at := now, updated_at := now },
           apps ++ [{ id := newId, user_id := u, stylist_id := sty, style_id := stl,
                      appointment_date := t, status := AppointmentStatus.SCHEDULED,
                      notes := nts, created_at := now, updated_at := now }]) := by
      simp only [createAppointment, if_neg hcond, if_neg hnotpast, if_neg hc]
    rw [heq]
    refine ⟨⟨fun h => absurd h.1 (by simp), fun h => absurd h hnex⟩, fun _ => rfl⟩

/-- C2 witness: with one `SCHEDULED` appointment for stylist `"s"` at instant
`200` in the store, a well-formed future-dated request for the same stylist
and instant draws the 409 conflict response. -/
theorem C2_conflict_detection_witness :
    (createAppointment
        [{ id := "a1", user_id := "u0", stylist_id := "s", style_id := "st0",
           appointment_date := 200, status := AppointmentStatus.SCHEDULED,
           notes := "", created_at := 0, updated_at := 0 }]
        ⟨"u", "s", "st", DateInput.valid 200, ""⟩ 100 "n").1
      = CreateAppointmentResult.conflict
          "La estilista ya tiene una cita programada en esa fecha y hora" :=
  (((C2_conflict_detection _ _ 100 "n" 200 (by decide) (by decide) (by decide)
      rfl (by norm_num)).1).mpr (by decide)).1

/-- C3 (code bug): the initial store satisfies "at most one `SCHEDULED`
appointment per (stylist, exact date-time) pair", but the sequence
create–create–update of `c3ViolatingOps` reaches a store violating it,
because `updateAppointment` re-dates an appointment without any conflict
check. -/
theorem C3_update_breaks_invariant :
    atMostOneScheduledPerSlot initialAppointments ∧
    ¬ atMostOneScheduledPerSlot (runAppointmentOps initialAppointments c3ViolatingOps) := by
  constructor
  · decide
  · decide

/-- C8: for every request and combination of provided body/params/query
schemas, `validateMultiple` runs every provided schema, accumulates the
formatted field errors of all three locations, and either — zero errors —
replaces each raw value with its normalized value and continues, or — one or
more errors — responds 400 with the
`{ success: false, message, errors, timestamp }` envelope carrying every
collected error. -/
theorem C8_validate_multiple {α β γ : Type} (sb : Option (Schema α))
    (sp : Option (Schema β)) (sq : Option (Schema γ)) (req : RequestData α β γ)
    (ts : String) :
    (validateMultiple sb sp sq req ts
        = MiddlewareOutcome.next ⟨targetValue sb req.body, targetValue sp req.params,
                                  targetValue sq req.query⟩
      ↔ collectedErrors sb sp sq req = []) ∧
    (collectedErrors sb sp sq req ≠ [] →
      validateMultiple sb sp sq req ts
        = MiddlewareOutcome.respond400
            { success := false
              message := "Errores de validación en los datos proporcionados"
              errors := collectedErrors sb sp sq req
              timestamp := ts }) := by
  rw [validateMultiple_eq]
  by_cases hE : collectedErrors sb sp sq req = []
  · rw [if_pos hE]
    exact ⟨iff_of_true rfl hE, fun hn => absurd hE hn⟩
  · rw [if_neg hE]
    exact ⟨iff_of_false (by simp) hE, fun _ => rfl⟩

/-- C8 witness: a body schema that fails with one formatted error leads to the
400 envelope carrying exactly that error. -/
theorem C8_validate_multiple_witness :
    collectedErrors (α := Unit) (β := Unit) (γ := Unit)
        (some fun _ => Except.error [⟨"name", "Requerido", "invalid_type"⟩]) none none
        ⟨(), (), ()⟩ ≠ [] ∧
    validateMultiple (some fun _ => Except.error [⟨"name", "Requerido", "invalid_type"⟩])
        none none ⟨(), (), ()⟩ "2025-01-01T00:00:00.000Z"
      = MiddlewareOutcome.respond400
          { success := false
            message := "Errores de validación en los datos proporcionados"
            errors := [⟨"name", "Requerido", "invalid_type"⟩]
            timestamp := "2025-01-01T00:00:00.000Z" } :=
  ⟨by simp [collectedErrors, targetErrors],
   (C8_validate_multiple _ _ _ _ _).2 (by simp [collectedErrors, targetErrors])⟩

/-- C5: every order-creation payload whose items list repeats a product id is
rejected by `createOrderSchema` validation, so `POST /orders` answers 400 and
the `createOrder` handler (and any store call inside it) never runs. -/
theorem C5_duplicate_products_rejected (p : RawCreateOrder)
    (hdup : ¬ (p.items.map (fun it => it.product_id)).Nodup) :
    createOrderValidate p = none ∧
    ∀ {ρ : Type} (handler : RawCreateOrder → ρ),
      postOrdersRoute p handler = RouteOutcome.validationError400 := by
  have href : ¬ duplicateRefineOk p := by
    unfold duplicateRefineOk
    intro h
    exact hdup ((dedup_length_eq_iff _).mp h.symm)
  have hnone : createOrderValidate p = none := by
    unfold createOrderValidate
    by_cases hbase : createOrderBaseAccepts p
    · rw [if_pos hbase, if_neg href]
    · rw [if_neg hbase]
  refine ⟨hnone, fun handler => ?_⟩
  unfold postOrdersRoute
  rw [hnone]

/-- C5 witness: a concrete payload repeating one product id over two items is
rejected before the handler. -/
theorem C5_duplicate_products_rejected_witness :
    ¬ (c5DupPayload.items.map (fun it => it.product_id)).Nodup ∧
    postOrdersRoute c5DupPayload (fun _ => (0 : ℕ)) = RouteOutcome.validationError400 :=
  ⟨by decide,
   (C5_duplicate_products_rejected c5DupPayload (by decide)).2 _⟩

/-- C10: every payload accepted by `createOrderSchema` has between 1 and 50
items, and a payload with more than 50 items is rejected by validation (so
the handler never runs on it). -/
theorem C10_items_length_bounds :
    (∀ p v : RawCreateOrder,
      createOrderValidate p = some v → 1 ≤ v.items.length ∧ v.items.length ≤ 50) ∧
    (∀ p : RawCreateOrder, 50 < p.items.length → createOrderValidate p = none) := by
  constructor
  · intro p v h
    unfold createOrderValidate at h
    by_cases hbase : createOrderBaseAccepts p
    · rw [if_pos hbase] at h
      by_cases href : duplicateRefineOk p
      · rw [if_pos href] at h
        have hv : v = normalizeCreateOrder p := by
          injection h with h'
          exact h'.symm
        have hitems : v.items = p.items := by rw [hv]; rfl
        rw [hitems]
        exact ⟨hbase.2.2.1, hbase.2.2.2.1⟩
      · rw [if_neg href] at h
        exact absurd h (by simp)
    · rw [if_neg hbase] at h
      exact absurd h (by simp)
  · intro p hlen
    have hbase : ¬ createOrderBaseAccepts p := by
      intro hb
      have := hb.2.2.2.1
      omega
    unfold createOrderValidate
    rw [if_neg hbase]

/-- C10 witness: a valid one-item payload is accepted with its bounds, and a
51-item payload is rejected. -/
theorem C10_items_length_bounds_witness :
    createOrderValidate c10OkPayload = some c10OkPayload ∧
    (1 ≤ c10OkPayload.items.length ∧ c10OkPayload.items.length ≤ 50) ∧
    createOrderValidate c10BigPayload = none := by
  have hitem : orderItemAccepts ⟨"6ba7b810-9dad-11d1-80b4-00c04fd430c8", 2, 10⟩ := by
    refine ⟨by decide, ⟨rfl, by decide, by decide⟩, by norm_num, by norm_num, ?_⟩
    exact (floatSafeRemainder_hundredth_iff 10).mpr ⟨1000, by norm_num⟩
  have hbase : createOrderBaseAccepts c10OkPayload := by
    refine ⟨by decide, ?_, by decide, by decide, trivial, trivial, trivial⟩
    intro it hit
    have hone : it = ⟨"6ba7b810-9dad-11d1-80b4-00c04fd430c8", 2, 10⟩ := by
      simpa [c10OkPayload] using hit
    rw [hone]
    exact hitem
  have href : duplicateRefineOk c10OkPayload := by decide
  have hok : createOrderValidate c10OkPayload = some c10OkPayload := by
    unfold createOrderValidate
    rw [if_pos hbase, if_pos href]
    rfl
  exact ⟨hok, C10_items_length_bounds.1 _ _ hok,
    C10_items_length_bounds.2 _ (by decide)⟩

/-- C2 counterexample (for the unconditional "iff"): against the controller's
own seeded store, requesting the slot of the seeded `SCHEDULED` appointment of
`stylist-1` at a clock past that instant is rejected 400 ("must be future"),
not 409, even though a conflicting `SCHEDULED` appointment exists. -/
theorem C2_counterexample :
    (∃ a ∈ initialAppointments, a.stylist_id = "stylist-1"
        ∧ a.appointment_date = 1721037600000
        ∧ a.status = AppointmentStatus.SCHEDULED) ∧
    (createAppointment initialAppointments
        ⟨"user-9", "stylist-1", "style-9", DateInput.valid 1721037600000, ""⟩
        1722000000000 "b9").1
      = CreateAppointmentResult.badRequest "La fecha de la cita debe ser futura" := by
  constructor
  · decide
  · decide

/-- C7 (corrected): each create first queries the store for its uniqueness key
and, when a record exists, rejects without inserting — but the rejection
status is 400 for categories and 409 for reviews and users; when no record
exists the insert proceeds.  For reviews, the request must first pass the
controller's field validations (present fields, integral rating in `[1,5]`,
known reviewable type). -/
theorem C7_uniqueness_prechecks :
    (∀ (cats : List Category) (r : CategoryCreateRequest) (newId : String) (now : ℤ),
      (((createCategory cats r newId now).1 = 400
          ∧ (createCategory cats r newId now).2 = cats)
        ↔ ∃ c ∈ cats, c.name = r.name) ∧
      ((¬ ∃ c ∈ cats, c.name = r.name) →
        createCategory cats r newId now = (201, (addCategory cats r newId now).2))) ∧
    (∀ (revs : List Review) (req : CreateReviewReq) (newId : String) (now : ℤ)
        (rating : ℚ) (rt : ReviewableType),
      req.user_id ≠ "" → req.rating = some rating → ratingFalsy req.rating = false →
      req.comment ≠ "" → req.reviewable_id ≠ "" → req.reviewable_type ≠ "" →
      ¬ (rating < 1 ∨ 5 < rating ∨ rating.den ≠ 1) →
      ReviewableType.ofString req.reviewable_type = some rt →
      ((((createReview revs req newId now).1 = 409
          ∧ (createReview revs req newId now).2 = revs)
        ↔ ∃ rv ∈ revs, rv.user_id = req.user_id ∧ rv.reviewable_id = req.reviewable_id
            ∧ rv.reviewable_type = rt) ∧
       ((¬ ∃ rv ∈ revs, rv.user_id = req.user_id ∧ rv.reviewable_id = req.reviewable_id
            ∧ rv.reviewable_type = rt) →
        createReview revs req newId now
          = (201, revs ++ [{ id := newId, user_id := req.user_id, rating := rating,
                             comment := req.comment, reviewable_id := req.reviewable_id,
                             reviewable_type := rt, is_verified := false,
                             created_at := now, updated_at := now }])))) ∧
    (∀ (users : List User) (name email hash role newId : String) (now : ℤ),
      (((createUser users name email hash role newId now).1 = 409
          ∧ (createUser users name email hash role newId now).2 = users)
        ↔ ∃ u ∈ users, u.email = email ∧ u.is_active = true) ∧
      ((¬ ∃ u ∈ users, u.email = email ∧ u.is_active = true) →
        createUser users name email hash role newId now
          = (201, users ++ [{ id := newId, name := name, email := email,
                              password_hash := hash, role := role, is_active := true,
                              created_at := now, updated_at := now }]))) := by
  refine ⟨?_, ?_, ?_⟩
  · intro cats r newId now
    cases h : getCategoryByName cats r.name with
    | some c =>
      have hex : ∃ c' ∈ cats, c'.name = r.name :=
        (getCategoryByName_isSome_iff cats r.name).mp (by rw [h]; rfl)
      refine ⟨?_, fun hn => absurd hex hn⟩
      have heq : createCategory cats r newId now = (400, cats) := by
        simp only [createCategory, h]
      rw [heq]
      exact iff_of_true ⟨rfl, rfl⟩ hex
    | none =>
      have hnex : ¬ ∃ c' ∈ cats, c'.name = r.name := by
        rw [← getCategoryByName_isSome_iff, h]
        simp
      refine ⟨?_, fun _ => by simp only [createCategory, h]⟩
      simp only [createCategory, h]
      refine iff_of_false (fun hcon => ?_) hnex
      have h201 : (201 : ℕ) = 400 := hcon.1
      exact absurd h201 (by decide)
  · intro revs req newId now rating rt hu hr hrf hc hrid hrty hvalid hof
    obtain ⟨uid, rat, com, rid, rty⟩ := req
    simp only at hu hr hrf hc hrid hrty hof ⊢
    subst hr
    have hcond : ¬ (uid = "" ∨ ratingFalsy (some rating) = true ∨ com = ""
        ∨ rid = "" ∨ rty = "") := by
      simp [hu, hc, hrid, hrty, hrf]
    cases hfind : (revs.find? fun rv =>
        rv.user_id == uid && rv.reviewable_id == rid && rv.reviewable_type == rt).isSome with
    | true =>
      have hex := (reviewFind_isSome_iff revs uid rid rt).mp hfind
      have heq : createReview revs ⟨uid, some rating, com, rid, rty⟩ newId now
          = (409, revs) := by
        simp only [createReview, if_neg hcond, if_neg hvalid, hof, hfind, if_pos]
      rw [heq]
      exact ⟨iff_of_true ⟨rfl, rfl⟩ hex, fun hn => absurd hex hn⟩
    | false =>
      have hnex := (reviewFind_isSome_iff revs uid rid rt).not.mp (by rw [hfind]; simp)
      have heq : createReview revs ⟨uid, some rating, com, rid, rty⟩ newId now
          = (201, revs ++ [{ id := newId, user_id := uid, rating := rating,
                             comment := com, reviewable_id := rid,
                             reviewable_type := rt, is_verified := false,
                             created_at := now, updated_at := now }]) := by
        simp only [createReview, if_neg hcond, if_neg hvalid, hof, hfind]
        rfl
      rw [heq]
      refine ⟨iff_of_false (fun hcon => ?_) hnex, fun _ => rfl⟩
      have h201 : (201 : ℕ) = 409 := hcon.1
      exact absurd h201 (by decide)
  · intro users name email hash role newId now
    cases h : getUserByEmail users email with
    | some u =>
      have hex : ∃ u' ∈ users, u'.email = email ∧ u'.is_active = true :=
        (getUserByEmail_isSome_iff users email).mp (by rw [h]; rfl)
      refine ⟨?_, fun hn => absurd hex hn⟩
      have heq : createUser users name email hash role newId now = (409, users) := by
        simp only [createUser, h]
      rw [heq]
      exact iff_of_true ⟨rfl, rfl⟩ hex
    | none =>
      have hnex : ¬ ∃ u' ∈ users, u'.email = email ∧ u'.is_active = true := by
        rw [← getUserByEmail_isSome_iff, h]
        simp
      refine ⟨?_, fun _ => by simp only [createUser, h]⟩
      simp only [createUser, h]
      refine iff_of_false (fun hcon => ?_) hnex
      have h201 : (201 : ℕ) = 409 := hcon.1
      exact absurd h201 (by decide)

/-- C7 witness: a duplicate (user, target) review draws 409 and leaves the
store unchanged. -/
theorem C7_uniqueness_prechecks_witness :
    (createReview [c7Review] c7ReviewReq "r2" 10).1 = 409
      ∧ (createReview [c7Review] c7ReviewReq "r2" 10).2 = [c7Review] :=
  ((C7_uniqueness_prechecks.2.1 [c7Review] c7ReviewReq "r2" 10 5 .STYLIST
      (by decide) rfl (by decide) (by decide) (by decide) (by decide)
      (by decide) rfl).1).mpr (by decide)

/-- C7 counterexample: a category create whose name already exists answers
400 (see `res.status(400)` in `createCategory`), not 409, refuting the
uniform "rejects with a conflict (409 status)" for categories. -/
theorem C7_counterexample :
    (∃ c ∈ c7Categories, c.name = "Trenzas") ∧
    (createCategory c7Categories ⟨"Trenzas", none, none, none⟩ "c2" 5).1 = 400 ∧
    ¬ (createCategory c7Categories ⟨"Trenzas", none, none, none⟩ "c2" 5).1 = 409 := by
  refine ⟨by decide, by decide, by decide⟩

/-- C9 (corrected): re-applying an identical partial update leaves every field
unchanged except the last-modified timestamp, which is set to the later
application's evaluation time; with the same evaluation time the resulting
entities are identical.  Shown for the category row update and for the
appointment merge. -/
theorem C9_update_idempotence :
    (∀ (c : Category) (u : CategoryUpdateRequest) (t₁ t₂ : ℤ) (c' : Category),
      updateCategoryRow c u t₁ = some c' →
      updateCategoryRow c' u t₂ = some { c' with updated_at := t₂ }) ∧
    (∀ (c : Category) (u : CategoryUpdateRequest) (t : ℤ) (c' : Category),
      updateCategoryRow c u t = some c' → updateCategoryRow c' u t = some c') ∧
    (∀ (current : Appointment) (req : UpdateAppointmentReq) (t₁ t₂ : ℤ),
      mergeAppointment (mergeAppointment current req t₁) req t₂
        = { mergeAppointment current req t₁ with updated_at := t₂ }) := by
  have hcat : ∀ (c : Category) (u : CategoryUpdateRequest) (t₁ t₂ : ℤ) (c' : Category),
      updateCategoryRow c u t₁ = some c' →
      updateCategoryRow c' u t₂ = some { c' with updated_at := t₂ } := by
    intro c u t₁ t₂ c' h
    unfold updateCategoryRow at h ⊢
    by_cases hcond : u.name = none ∧ u.description = none ∧ u.display_order = none
        ∧ u.is_active = none
    · rw [if_pos hcond] at h
      exact absurd h (by simp)
    · rw [if_neg hcond] at h ⊢
      injection h with h'
      subst h'
      obtain ⟨n, d, o, a⟩ := u
      cases n <;> cases d <;> cases o <;> cases a <;> simp
  have hmerge : ∀ (current : Appointment) (req : UpdateAppointmentReq) (t₁ t₂ : ℤ),
      mergeAppointment (mergeAppointment current req t₁) req t₂
        = { mergeAppointment current req t₁ with updated_at := t₂ } := by
    intro current req t₁ t₂
    obtain ⟨d, s, n⟩ := req
    unfold mergeAppointment
    cases d <;> cases n <;>
      by_cases ht : truthyStatus s = true <;>
      cases ho : AppointmentStatus.ofString (s.getD "") <;>
      simp [ht, ho]
  refine ⟨hcat, ?_, hmerge⟩
  intro c u t c' h
  have := hcat c u t t c' h
  have hts : c'.updated_at = t := by
    unfold updateCategoryRow at h
    by_cases hcond : u.name = none ∧ u.description = none ∧ u.display_order = none
        ∧ u.is_active = none
    · rw [if_pos hcond] at h
      exact absurd h (by simp)
    · rw [if_neg hcond] at h
      injection h with h'
      rw [← h']
  rw [this]
  congr 1
  cases c'
  simp_all

/-- C9 witness: renaming a category, then re-submitting the same rename at a
later clock, changes only `updated_at`. -/
theorem C9_update_idempotence_witness :
    updateCategoryRow c9Category c9Update 0
        = some { c9Category with name := "Trenzas Africanas", updated_at := 0 } ∧
    updateCategoryRow { c9Category with name := "Trenzas Africanas", updated_at := 0 }
        c9Update 1
        = some { c9Category with name := "Trenzas Africanas", updated_at := 1 } :=
  ⟨by decide,
   C9_update_idempotence.1 c9Category c9Update 0 1
     { c9Category with name := "Trenzas Africanas", updated_at := 0 } (by decide)⟩

/-- C9 counterexample: applying the same category update twice in succession
(at clock 0, then clock 1) does not yield the same entity as applying it
once — `updated_at` drifts to the later application time. -/
theorem C9_counterexample :
    (updateCategoryRow c9Category c9Update 0).bind
        (fun c1 => updateCategoryRow c1 c9Update 1)
      ≠ updateCategoryRow c9Category c9Update 0 := by
  decide

end LauraBraids
